import Mathlib

/-!
Verification development for the comprl competition server.

The definitions below are a shallow embedding of the server-side
coordination engine (`comprl/server/managers.py`,
`comprl/server/interfaces.py`, `comprl/server/config.py`,
`comprl/server/data/sql_backend.py`).  Python floats are modelled as
rationals, datetimes as rational second counts, dictionaries as
functional maps or association lists, and the external openskill rating
library as abstract function parameters.  `comprl/server/data/interfaces.py`
is not part of the sources; the data types it provides (`UserRole`,
`GameEndState`, `GameResult`) are modelled from the spec.
-/

namespace Comprl

/-- Player identifier (`comprl.shared.types.PlayerID`, a UUID in the source),
modelled as a natural number. -/
abbrev PlayerID := Nat

/-- Game identifier (`comprl.shared.types.GameID`), modelled as a natural
number. -/
abbrev GameID := Nat

/-- Modelled from the spec: `UserRole` from `comprl/server/data/interfaces.py`
(file absent from the sources); spec section 3: role is one of USER, BOT,
ADMIN. -/
inductive UserRole where
  | USER
  | BOT
  | ADMIN
deriving DecidableEq, Repr

/-- Modelled from the spec: `GameEndState` from
`comprl/server/data/interfaces.py` (file absent from the sources); spec
section 6: end_state encoding 0=WIN, 1=DRAW, 2=DISCONNECTED. -/
inductive GameEndState where
  | WIN
  | DRAW
  | DISCONNECTED
deriving DecidableEq, Repr

/-- User row (`sql_backend.py`, class User).  The `role` column is a string in
the database and is converted with `UserRole(...)` at the use sites; the
conversion is collapsed here and the field holds the role directly.  The
password and token columns are irrelevant for the claims and omitted from the
snapshot carried around by the managers. -/
structure User where
  user_id : Int
  username : String
  role : UserRole
  mu : ℚ
  sigma : ℚ
deriving DecidableEq, Repr

/-- Player session state (`interfaces.py`, `IPlayer.__init__`). -/
structure Player where
  id : PlayerID
  user_id : Option Int := none
  username : Option String := none
  is_connected : Bool := true
deriving DecidableEq, Repr

/-- Modelled from the spec (`comprl/server/data/interfaces.py` absent from the
sources): the write-once game result record, with the fields passed by the
constructor call in `IGame.get_result` (spec section 3). -/
structure GameResult where
  game_id : GameID
  user1_id : Int
  user2_id : Int
  score_user_1 : ℚ
  score_user_2 : ℚ
  start_time : ℚ
  end_state : GameEndState
  is_user1_winner : Bool
  is_user1_disconnected : Bool
deriving DecidableEq, Repr

/-- Game instance state (`interfaces.py`, `IGame.__init__`).  The `players`
dict always holds exactly two sessions (in insertion order `player1`,
`player2`); `scores` models the per-player score dict, `playerWon` the
abstract `_player_won` method, and the finish callbacks are opaque labels
identifying the registered callback functions. -/
structure Game where
  id : GameID
  player1 : Player
  player2 : Player
  scores : PlayerID → ℚ
  start_time : ℚ
  disconnected_player_id : Option PlayerID := none
  finish_callbacks : List Nat := []
  playerWon : PlayerID → Bool

/-- The two players of a game in the iteration order of the `players` dict. -/
def Game.playersList (g : Game) : List Player := [g.player1, g.player2]

/-- Embedding of `IGame.get_result` (`interfaces.py` lines 219 to 250):
compute the end state (DRAW by default, WIN if either player won,
DISCONNECTED overriding both when `disconnected_player_id` is set), then
return `none` when either player's `user_id` is unset, otherwise the
`GameResult` record. -/
def IGame.get_result (g : Game) : Option GameResult :=
  let win_or_draw : GameEndState :=
    if g.playerWon g.player1.id || g.playerWon g.player2.id then GameEndState.WIN
    else GameEndState.DRAW
  let game_end_state : GameEndState :=
    if g.disconnected_player_id.isSome then GameEndState.DISCONNECTED
    else win_or_draw
  match g.player1.user_id, g.player2.user_id with
  | some user1_id, some user2_id =>
      some
        { game_id := g.id
          user1_id := user1_id
          user2_id := user2_id
          score_user_1 := g.scores g.player1.id
          score_user_2 := g.scores g.player2.id
          start_time := g.start_time
          end_state := game_end_state
          is_user1_winner := g.playerWon g.player1.id
          is_user1_disconnected := g.disconnected_player_id == some g.player1.id }
  | _, _ => none

/-- Observable effects of `IGame._end` (`interfaces.py` lines 146 to 184): the
save of the recorded actions, the finish-callback invocations (identified by
their labels in `finish_callbacks`) and the `notify_end` calls. -/
inductive GameEvent where
  | saveActions
  | finishCallback (callback : Nat)
  | notifyEnd (player : PlayerID)
deriving DecidableEq, Repr

/-- Embedding of `IGame._end` (`interfaces.py` lines 146 to 184) as the trace
of its observable effects: when no player is flagged disconnected the game
actions are saved; then every finish callback fires; then every player other
than the disconnected one receives `notify_end`. -/
def IGame.end_events (g : Game) : List GameEvent :=
  (if g.disconnected_player_id = none then [GameEvent.saveActions] else [])
    ++ g.finish_callbacks.map GameEvent.finishCallback
    ++ (g.playersList.filter fun p => g.disconnected_player_id != some p.id).map
        fun p => GameEvent.notifyEnd p.id

/-- Embedding of `IGame.force_end` (`interfaces.py` lines 210 to 217): set
`disconnected_player_id` to the given player and invoke `_end`.  Returns the
updated game together with the trace of effects of the `_end` call. -/
def IGame.force_end (g : Game) (player_id : PlayerID) : Game × List GameEvent :=
  let g' := { g with disconnected_player_id := some player_id }
  (g', IGame.end_events g')

/-- State owned by `GameManager` (`managers.py` lines 22 to 33): the
active-games dict as an association list keyed by game id, together with the
rows of the `games` table (`GameData(...).add` appends exactly one row per
call, `sql_backend.py` lines 87 to 108). -/
structure GameManagerState where
  games : List (GameID × Game)
  game_rows : List GameResult

/-- Embedding of `GameManager.end_game` (`managers.py` lines 62 to 81): if the
game id is still in the active-games dict, fetch the result, persist it when
it is not `None`, and delete the game from the dict; otherwise do nothing. -/
def GameManager.end_game (st : GameManagerState) (game : Game) : GameManagerState :=
  if st.games.any fun kv => kv.1 == game.id then
    let game_rows :=
      match IGame.get_result game with
      | some game_result => st.game_rows ++ [game_result]
      | none => st.game_rows
    { games := st.games.filter fun kv => kv.1 != game.id
      game_rows := game_rows }
  else st

/-- State owned by `PlayerManager` (`managers.py` lines 121 to 125): the
`auth_players` and `connected_players` dicts, modelled as functional maps. -/
structure PlayerManagerState where
  auth_players : PlayerID → Option (Player × Int)
  connected_players : PlayerID → Option Player

/-- Embedding of `PlayerManager.add` (`managers.py` lines 127 to 137): insert
the player into `connected_players`. -/
def PlayerManager.add (st : PlayerManagerState) (player : Player) : PlayerManagerState :=
  { st with
    connected_players := fun k => if k = player.id then some player else st.connected_players k }

/-- The session field assignments done on successful authentication
(`managers.py` lines 163 to 165): set the session's `user_id` and `username`
from the user row. -/
def Player.set_user (player : Player) (user : User) : Player :=
  { player with user_id := some user.user_id, username := some user.username }

/-- Embedding of `PlayerManager.auth` (`managers.py` lines 139 to 171).  The
database lookup `UserData(...).get_user_by_token` is abstracted as the
function `get_user_by_token`.  On success the session object stored in both
dicts has its `user_id` and `username` fields set (the two dicts alias the
same mutable session in the source, so the update is visible through both). -/
def PlayerManager.auth (get_user_by_token : String → Option User)
    (st : PlayerManagerState) (player_id : PlayerID) (token : String) :
    Bool × PlayerManagerState :=
  match st.connected_players player_id with
  | none => (false, st)
  | some player =>
    match get_user_by_token token with
    | some user =>
        let player' := player.set_user user
        (true,
          { auth_players := fun k =>
              if k = player_id then some (player', user.user_id) else st.auth_players k
            connected_players := fun k =>
              if k = player_id then some player' else st.connected_players k })
    | none => (false, st)

/-- Embedding of `PlayerManager.remove` (`managers.py` lines 173 to 187):
delete the player from `connected_players` if present, and in that case also
from `auth_players` if present there. -/
def PlayerManager.remove (st : PlayerManagerState) (player : Player) : PlayerManagerState :=
  if (st.connected_players player.id).isSome then
    let st1 :=
      { st with
        connected_players := fun k => if k = player.id then none else st.connected_players k }
    if (st1.auth_players player.id).isSome then
      { st1 with
        auth_players := fun k => if k = player.id then none else st1.auth_players k }
    else st1
  else st

/-- Inclusion invariant of the two `PlayerManager` dicts: every authenticated
player id is also a connected player id. -/
def PlayerManagerInv (st : PlayerManagerState) : Prop :=
  ∀ player_id, (st.auth_players player_id).isSome → (st.connected_players player_id).isSome

/-- Embedding of `ScoreDecayConfig` (`config.py` lines 22 to 33). -/
structure ScoreDecayConfig where
  interval_minutes : Nat := 0
  delta : ℚ := 1 / 2
deriving DecidableEq, Repr

/-- Embedding of `MatchmakingConfig` (`config.py` lines 36 to 53) with its
field defaults. -/
structure MatchmakingConfig where
  gauss_leaderboard_rater_sigma : ℚ := 20
  match_quality_threshold : ℚ := 3 / 10
  percentage_min_players_waiting : ℚ := 1 / 10
  percental_time_bonus : ℚ := 1 / 10
  max_parallel_games : Nat := 100
deriving DecidableEq, Repr

/-- Embedding of the top-level `Config` dataclass (`config.py` lines 56 to
92).  Path fields are strings; the `omegaconf.MISSING` sentinel is modelled as
the literal string it expands to. -/
structure Config where
  port : Nat := 8080
  server_update_interval : ℚ := 1
  timeout : Nat := 10
  log_level : String := "INFO"
  game_path : String := "???"
  game_class : String := "???"
  database_path : String := "???"
  data_dir : String := "???"
  monitor_log_path : Option String := none
  registration_key : String := ""
  server_url : String := "comprl.example.com"
  matchmaking : MatchmakingConfig := {}
  score_decay : ScoreDecayConfig := {}
deriving DecidableEq, Repr

/-- Values reachable by a Python attribute access on a `Config` instance. -/
inductive ConfigAttr where
  | natVal (n : Nat)
  | ratVal (q : ℚ)
  | strVal (s : String)
  | optStrVal (s : Option String)
  | matchmakingVal (m : MatchmakingConfig)
  | scoreDecayVal (s : ScoreDecayConfig)
deriving DecidableEq, Repr

/-- Python `getattr` on a `Config` dataclass instance: `some` for each field
declared in `config.py` lines 56 to 92, `none` (an `AttributeError`) for every
other name. -/
def Config.getattr (c : Config) : String → Option ConfigAttr
  | "port" => some (ConfigAttr.natVal c.port)
  | "server_update_interval" => some (ConfigAttr.ratVal c.server_update_interval)
  | "timeout" => some (ConfigAttr.natVal c.timeout)
  | "log_level" => some (ConfigAttr.strVal c.log_level)
  | "game_path" => some (ConfigAttr.strVal c.game_path)
  | "game_class" => some (ConfigAttr.strVal c.game_class)
  | "database_path" => some (ConfigAttr.strVal c.database_path)
  | "data_dir" => some (ConfigAttr.strVal c.data_dir)
  | "monitor_log_path" => some (ConfigAttr.optStrVal c.monitor_log_path)
  | "registration_key" => some (ConfigAttr.strVal c.registration_key)
  | "server_url" => some (ConfigAttr.strVal c.server_url)
  | "matchmaking" => some (ConfigAttr.matchmakingVal c.matchmaking)
  | "score_decay" => some (ConfigAttr.scoreDecayVal c.score_decay)
  | _ => none

/-- Numeric view of a config attribute value. -/
def ConfigAttr.asRat : ConfigAttr → Option ℚ
  | ConfigAttr.ratVal q => some q
  | ConfigAttr.natVal n => some n
  | _ => none

/-- Natural-number view of a config attribute value. -/
def ConfigAttr.asNat : ConfigAttr → Option Nat
  | ConfigAttr.natVal n => some n
  | _ => none

/-- The four matchmaking tunables stored on the manager by
`MatchmakingManager.__init__` (`managers.py` lines 341 to 344). -/
structure MatchmakingTunables where
  match_quality_threshold : ℚ
  percentage_min_players_waiting : ℚ
  percental_time_bonus : ℚ
  max_parallel_games : Nat
deriving DecidableEq, Repr

/-- Embedding of the tunable reads in `MatchmakingManager.__init__`
(`managers.py` lines 335 to 344): `config = get_config()` is the top-level
`Config`, and the constructor reads `config.match_quality_threshold`,
`config.percentage_min_players_waiting`, `config.percental_time_bonus` and
`config.max_parallel_games` on it.  A failed attribute access (an
`AttributeError` in Python) is modelled as `none`. -/
def MatchmakingManager.init_tunables (config : Config) : Option MatchmakingTunables := do
  let t ← (config.getattr "match_quality_threshold").bind ConfigAttr.asRat
  let w ← (config.getattr "percentage_min_players_waiting").bind ConfigAttr.asRat
  let b ← (config.getattr "percental_time_bonus").bind ConfigAttr.asRat
  let m ← (config.getattr "max_parallel_games").bind ConfigAttr.asNat
  pure
    { match_quality_threshold := t
      percentage_min_players_waiting := w
      percental_time_bonus := b
      max_parallel_games := m }

/-- Embedding of `QueueEntry` (`managers.py` lines 288 to 293): player id,
user snapshot and the time the player joined the queue (a datetime, modelled
as rational seconds). -/
structure QueueEntry where
  player_id : PlayerID
  user : User
  in_queue_since : ℚ
deriving DecidableEq, Repr

/-- Embedding of `QueueEntry.is_legal_match` (`managers.py` lines 295 to 308):
refuse a pair whose two entries carry the same user id, refuse a pair whose
two users both have the BOT role, accept everything else. -/
def QueueEntry.is_legal_match (self other : QueueEntry) : Bool :=
  if self.user.user_id = other.user.user_id then false
  else if self.user.role = UserRole.BOT ∧ other.user.role = UserRole.BOT then false
  else true

/-- The `_match_quality_scores` cache (`managers.py` line 347): a dict keyed
by `frozenset` of the two usernames, modelled as an association list whose
keys are username pairs compared up to swapping. -/
abbrev QualityCache := List ((String × String) × ℚ)

/-- Equality of two username pairs as `frozenset`s. -/
def cacheKeyEq (a b : String × String) : Bool :=
  (a.1 == b.1 && a.2 == b.2) || (a.1 == b.2 && a.2 == b.1)

/-- Lookup in the quality cache under `frozenset` key equality. -/
def cacheLookup : QualityCache → String × String → Option ℚ
  | [], _ => none
  | e :: rest, key => if cacheKeyEq e.1 key then some e.2 else cacheLookup rest key

/-- Embedding of `MatchmakingManager._rate_match_quality` (`managers.py` lines
530 to 569).  `predict_draw` abstracts `PlackettLuce.predict_draw` on two
single-player teams whose ratings are (mu, sigma) pairs; `percental_time_bonus`
is the tunable of the same name and `now` the value of `datetime.now()` at the
call.  Returns the quality together with the updated cache: on a cache hit for
the unordered username pair the cached value is returned and the cache is left
unchanged, otherwise the computed value is stored under that key. -/
def MatchmakingManager.rate_match_quality
    (predict_draw : ℚ × ℚ → ℚ × ℚ → ℚ) (percental_time_bonus : ℚ) (now : ℚ)
    (cache : QualityCache) (player1 player2 : QueueEntry) : ℚ × QualityCache :=
  let cache_key := (player1.user.username, player2.user.username)
  match cacheLookup cache cache_key with
  | some q => (q, cache)
  | none =>
    let waiting_time_p1 := now - player1.in_queue_since
    let waiting_time_p2 := now - player2.in_queue_since
    let combined_waiting_time := waiting_time_p1 + waiting_time_p2
    let waiting_bonus := max 0 ((combined_waiting_time / 60 - 1) * percental_time_bonus)
    let rating_p1 := (player1.user.mu, player1.user.sigma)
    let rating_p2 := (player2.user.mu, player2.user.sigma)
    let draw_prob := predict_draw rating_p1 rating_p2
    let match_quality := draw_prob + waiting_bonus
    (match_quality, cache ++ [(cache_key, match_quality)])

/-- Embedding of `MatchmakingManager._compute_match_qualities` (`managers.py`
lines 432 to 449); the quality computation is abstracted as `quality`.  Only
candidates that form a legal match with `player1` are rated. -/
def MatchmakingManager.compute_match_qualities (quality : QueueEntry → QueueEntry → ℚ)
    (player1 : QueueEntry) (candidates : List QueueEntry) : List (QueueEntry × ℚ) :=
  (candidates.filter fun c => player1.is_legal_match c).map fun c => (c, quality player1 c)

/-- Embedding of `MatchmakingManager.remove` (`managers.py` lines 407 to 414):
drop every queue entry with the given player id. -/
def MatchmakingManager.remove_entry (queue : List QueueEntry) (player_id : PlayerID) :
    List QueueEntry :=
  queue.filter fun entry => entry.player_id != player_id

/-- State touched by `MatchmakingManager._search_for_matches`: the queue, the
number of games held by the game manager, and the games started during the
pass (each recorded as the pair of matched queue entries). -/
structure SearchState where
  queue : List QueueEntry
  active_games : Nat
  started : List (QueueEntry × QueueEntry)
deriving Repr

/-- Embedding of `MatchmakingManager._start_game` (`managers.py` lines 509 to
528); `alive pid` models `player_manager.get_player_by_id(pid) is not None`.
When both sessions are still known, both entries leave the queue and a game
starts; otherwise only the vanished entries are removed and no game starts. -/
def MatchmakingManager.start_game (alive : PlayerID → Bool)
    (st : SearchState) (player1 player2 : QueueEntry) : SearchState :=
  if alive player1.player_id && alive player2.player_id then
    { queue :=
        MatchmakingManager.remove_entry
          (MatchmakingManager.remove_entry st.queue player1.player_id) player2.player_id
      active_games := st.active_games + 1
      started := st.started ++ [(player1, player2)] }
  else
    let q1 :=
      if alive player1.player_id then st.queue
      else MatchmakingManager.remove_entry st.queue player1.player_id
    let q2 :=
      if alive player2.player_id then q1
      else MatchmakingManager.remove_entry q1 player2.player_id
    { st with queue := q2 }

/-- Embedding of the while loop of `MatchmakingManager._search_for_matches`
(`managers.py` lines 463 to 507), starting at queue index `i`.  `fuel` bounds
the number of loop iterations (the source loop terminates because every
iteration either advances `i` or shortens the queue, so the state after fuel
exhaustion is the state after that many iterations of the source loop).
`pick mqs` models the index drawn by `rng.choice`, taken modulo the number of
above-threshold candidates.  Each iteration first stops if the parallel-game
limit is reached, then rates the candidates after index `i`, filters them by
the quality threshold, and either starts a game with a sampled candidate
(keeping `i`) or advances `i`. -/
def MatchmakingManager.search_loop (quality : QueueEntry → QueueEntry → ℚ)
    (threshold : ℚ) (max_parallel : Nat) (pick : List (QueueEntry × ℚ) → Nat)
    (alive : PlayerID → Bool) : Nat → Nat → SearchState → SearchState
  | 0, _, st => st
  | fuel + 1, i, st =>
    if h : i + 1 < st.queue.length then
      if max_parallel ≤ st.active_games then st
      else
        match (MatchmakingManager.compute_match_qualities quality
            (st.queue.get ⟨i, Nat.lt_of_succ_lt h⟩) (st.queue.drop (i + 1))).filter
            (fun mq => threshold < mq.2) with
        | [] =>
            MatchmakingManager.search_loop quality threshold max_parallel pick alive fuel
              (i + 1) st
        | mq0 :: rest =>
            MatchmakingManager.search_loop quality threshold max_parallel pick alive fuel i
              (MatchmakingManager.start_game alive st
                (st.queue.get ⟨i, Nat.lt_of_succ_lt h⟩)
                ((mq0 :: rest).get ⟨pick (mq0 :: rest) % (mq0 :: rest).length,
                  Nat.mod_lt _ (Nat.succ_pos _)⟩).1)
    else st

/-- Embedding of `MatchmakingManager._search_for_matches` (`managers.py` lines
451 to 461 plus the loop): return unchanged when fewer players than
`_min_players_waiting()` (abstracted as `min_players`) are queued, otherwise
run the matching loop from index 0. -/
def MatchmakingManager.search_for_matches (quality : QueueEntry → QueueEntry → ℚ)
    (threshold : ℚ) (max_parallel : Nat) (pick : List (QueueEntry × ℚ) → Nat)
    (alive : PlayerID → Bool) (min_players : Nat) (fuel : Nat) (st : SearchState) :
    SearchState :=
  if st.queue.length < min_players then st
  else MatchmakingManager.search_loop quality threshold max_parallel pick alive fuel 0 st

/-- Embedding of `UserData.set_matchmaking_parameters` (`sql_backend.py`): a
pointwise update of the user parameter store (user id to (mu, sigma)), which
abstracts the mu and sigma columns of the users table. -/
def update_matchmaking_parameters (store : Int → ℚ × ℚ) (user_id : Int) (v : ℚ × ℚ) :
    Int → ℚ × ℚ :=
  fun u => if u = user_id then v else store u

/-- Embedding of the rating-update part of `MatchmakingManager._end_game`
(`managers.py` lines 571 to 601).  `rate` abstracts `PlackettLuce.rate` on two
single-player teams: given the two (mu, sigma) ratings and the two scores it
returns the two updated ratings.  When the game result is `None` or its end
state is DISCONNECTED the store is returned unchanged; otherwise both users'
parameters are read, rated with the stored scores, and written back. -/
def MatchmakingManager.end_game_ratings
    (rate : ℚ × ℚ → ℚ × ℚ → ℚ → ℚ → (ℚ × ℚ) × (ℚ × ℚ))
    (store : Int → ℚ × ℚ) (game : Game) : Int → ℚ × ℚ :=
  match IGame.get_result game with
  | some result =>
    if result.end_state ≠ GameEndState.DISCONNECTED then
      let p1 := store result.user1_id
      let p2 := store result.user2_id
      let rated := rate p1 p2 result.score_user_1 result.score_user_2
      update_matchmaking_parameters
        (update_matchmaking_parameters store result.user1_id rated.1)
        result.user2_id rated.2
    else store
  | none => store

/-- Sample user for concrete witnesses. -/
def userAlice : User :=
  { user_id := 10, username := "alice", role := UserRole.USER, mu := 25, sigma := 8 }

/-- Sample user for concrete witnesses. -/
def userBob : User :=
  { user_id := 11, username := "bob", role := UserRole.USER, mu := 25, sigma := 8 }

/-- Sample game for the `get_result` witness: both players authenticated,
player 1 won, nobody disconnected. -/
def gameA : Game :=
  { id := 7
    player1 := { id := 1, user_id := some 10, username := some "alice" }
    player2 := { id := 2, user_id := some 11, username := some "bob" }
    scores := fun _ => 0
    start_time := 0
    disconnected_player_id := none
    finish_callbacks := []
    playerWon := fun pid => pid == 1 }

/-- Expected result of `gameA`. -/
def resultA : GameResult :=
  { game_id := 7, user1_id := 10, user2_id := 11, score_user_1 := 0, score_user_2 := 0
    start_time := 0, end_state := GameEndState.WIN, is_user1_winner := true
    is_user1_disconnected := false }

/-- Token lookup table for the `PlayerManager.auth` witness. -/
def tokenTable : String → Option User :=
  fun token => if token = "tok-alice" then some userAlice else none

/-- Player manager state for the `auth` witness: session 1 connected and not
yet authenticated. -/
def pmStateA : PlayerManagerState :=
  { auth_players := fun _ => none
    connected_players := fun k => if k = 1 then some { id := 1 } else none }

/-- Empty player manager state for the invariant witness. -/
def pmStateEmpty : PlayerManagerState :=
  { auth_players := fun _ => none, connected_players := fun _ => none }

/-- Sample session for the invariant witness. -/
def playerCarol : Player := { id := 3 }

/-- Queue entry of `userAlice`, in queue since time 0. -/
def entryAlice : QueueEntry := { player_id := 1, user := userAlice, in_queue_since := 0 }

/-- Queue entry of `userBob`, in queue since time 0. -/
def entryBob : QueueEntry := { player_id := 2, user := userBob, in_queue_since := 0 }

/-- Constant draw-probability model for the match-quality witness. -/
def predictDrawHalf : ℚ × ℚ → ℚ × ℚ → ℚ := fun _ _ => 1 / 2

/-- Sample game for the rating-update witness: WIN for player 1, both players
authenticated, nobody disconnected. -/
def gameD : Game :=
  { id := 8
    player1 := { id := 1, user_id := some 10, username := some "alice" }
    player2 := { id := 2, user_id := some 11, username := some "bob" }
    scores := fun pid => if pid = 1 then 1 else 0
    start_time := 0
    disconnected_player_id := none
    finish_callbacks := []
    playerWon := fun pid => pid == 1 }

/-- User parameter store for the rating-update witness. -/
def storeD : Int → ℚ × ℚ := fun _ => (25, 8)

/-- Sample rating function for the rating-update witness: adds one to the mu
of the first rating and subtracts one from the mu of the second. -/
def rateD : ℚ × ℚ → ℚ × ℚ → ℚ → ℚ → (ℚ × ℚ) × (ℚ × ℚ) :=
  fun r1 r2 _ _ => ((r1.1 + 1, r1.2), (r2.1 - 1, r2.2))

/-- Sample game for the `GameManager.end_game` witness. -/
def gameE : Game :=
  { id := 5
    player1 := { id := 1, user_id := some 10, username := some "alice" }
    player2 := { id := 2, user_id := some 11, username := some "bob" }
    scores := fun _ => 0
    start_time := 0
    disconnected_player_id := none
    finish_callbacks := []
    playerWon := fun _ => false }

/-- Expected result row of `gameE`. -/
def resultE : GameResult :=
  { game_id := 5, user1_id := 10, user2_id := 11, score_user_1 := 0, score_user_2 := 0
    start_time := 0, end_state := GameEndState.DRAW, is_user1_winner := false
    is_user1_disconnected := false }

/-- Game manager state holding `gameE` as its only active game. -/
def gmStateE : GameManagerState := { games := [(5, gameE)], game_rows := [] }

/-- Sample game for the `force_end` counterexample: one finish callback
registered (as `GameManager.start_game` and `MatchmakingManager._start_game`
both do). -/
def gameB : Game :=
  { id := 6
    player1 := { id := 1, user_id := some 10, username := some "alice" }
    player2 := { id := 2, user_id := some 11, username := some "bob" }
    scores := fun _ => 0
    start_time := 0
    disconnected_player_id := none
    finish_callbacks := [0]
    playerWon := fun _ => false }

/-- Sample game for the `force_end` witness. -/
def gameC : Game :=
  { id := 9
    player1 := { id := 1, user_id := some 10, username := some "alice" }
    player2 := { id := 2, user_id := some 11, username := some "bob" }
    scores := fun _ => 0
    start_time := 0
    disconnected_player_id := none
    finish_callbacks := [5]
    playerWon := fun _ => false }

/-- Constant quality function for the matching-pass witnesses. -/
def qualityOne : QueueEntry → QueueEntry → ℚ := fun _ _ => 1

/-- Constant sampling oracle for the matching-pass witnesses. -/
def pickZero : List (QueueEntry × ℚ) → Nat := fun _ => 0

/-- Session-liveness oracle for the matching-pass witnesses: every session is
still registered with the player manager. -/
def aliveAll : PlayerID → Bool := fun _ => true

/-- Search state for the legality witness: Alice and Bob queued, no active
games. -/
def searchStateA : SearchState := { queue := [entryAlice, entryBob], active_games := 0, started := [] }

/-- Search state for the parallel-cap witness: Alice and Bob queued, two
active games. -/
def searchStateB : SearchState := { queue := [entryAlice, entryBob], active_games := 2, started := [] }

/-- C2: `IGame.get_result` returns `none` exactly when at least one of the two
players' `user_id` is unset; when it returns a result, the end state is
DISCONNECTED whenever `disconnected_player_id` is set (regardless of who won),
and otherwise WIN if either player won and DRAW if neither did. -/
theorem get_result_spec (g : Game) :
    (IGame.get_result g = none ↔ g.player1.user_id = none ∨ g.player2.user_id = none)
    ∧ ∀ r : GameResult, IGame.get_result g = some r →
        (g.disconnected_player_id.isSome → r.end_state = GameEndState.DISCONNECTED)
        ∧ (g.disconnected_player_id = none →
            r.end_state =
              if g.playerWon g.player1.id || g.playerWon g.player2.id then GameEndState.WIN
              else GameEndState.DRAW) := by
  unfold IGame.get_result
  cases h1 : g.player1.user_id with
  | none =>
      cases h2 : g.player2.user_id <;> simp
  | some u1 =>
      cases h2 : g.player2.user_id with
      | none => simp
      | some u2 =>
          refine ⟨by simp, fun r hr => ?_⟩
          have hr' := (Option.some_inj.mp hr).symm
          subst hr'
          constructor
          · intro hdisc
            simp [hdisc]
          · intro hdisc
            simp [hdisc]

/-- Witness for C2 at the concrete game `gameA`. -/
theorem get_result_spec_witness :
    IGame.get_result gameA = some resultA ∧ resultA.end_state = GameEndState.WIN := by
  have h := ((get_result_spec gameA).2 resultA (by decide)).2 rfl
  exact ⟨by decide, by rw [h]; decide⟩

/-- C8: the default configuration's matchmaking section carries the claimed
defaults 0.3, 0.1, 0.1 and 100, but `MatchmakingManager.__init__` reads the
tunables as attributes of the top-level `Config`, where no such attributes
exist, so under the default configuration the construction raises an
`AttributeError` (modelled as `none`) instead of yielding the tunables. -/
theorem matchmaking_init_tunables_bug :
    MatchmakingManager.init_tunables {} = none
    ∧ ({} : Config).matchmaking.match_quality_threshold = 3 / 10
    ∧ ({} : Config).matchmaking.percentage_min_players_waiting = 1 / 10
    ∧ ({} : Config).matchmaking.percental_time_bonus = 1 / 10
    ∧ ({} : Config).matchmaking.max_parallel_games = 100 :=
  ⟨rfl, rfl, rfl, rfl, rfl⟩

/-- C9: `PlayerManager.auth` succeeds exactly when the player id is connected
and the token matches a stored user; on success it records the session and
user id in `auth_players` and sets the session's `user_id` and `username`; for
a disconnected player id it returns false leaving the state unchanged, and for
an unknown token it returns false. -/
theorem auth_spec (get_user_by_token : String → Option User)
    (st : PlayerManagerState) (player_id : PlayerID) (token : String) :
    ((PlayerManager.auth get_user_by_token st player_id token).1 = true ↔
      (st.connected_players player_id).isSome ∧ (get_user_by_token token).isSome)
    ∧ (∀ player user, st.connected_players player_id = some player →
        get_user_by_token token = some user →
          (PlayerManager.auth get_user_by_token st player_id token).2.auth_players player_id
            = some (player.set_user user, user.user_id)
          ∧ (PlayerManager.auth get_user_by_token st player_id token).2.connected_players
              player_id
            = some (player.set_user user))
    ∧ (st.connected_players player_id = none →
        PlayerManager.auth get_user_by_token st player_id token = (false, st))
    ∧ (get_user_by_token token = none →
        (PlayerManager.auth get_user_by_token st player_id token).1 = false) := by
  unfold PlayerManager.auth
  cases hc : st.connected_players player_id with
  | none =>
      cases hd : get_user_by_token token <;> simp [hc]
  | some player =>
      cases hd : get_user_by_token token with
      | none => simp [hc, hd]
      | some user =>
          refine ⟨by simp, fun pl us h1 h2 => ?_, by simp [hc], by simp [hd]⟩
          obtain rfl := Option.some_inj.mp h1
          obtain rfl := Option.some_inj.mp h2
          simp

/-- Witness for C9 at a concrete state and token table. -/
theorem auth_spec_witness :
    (PlayerManager.auth tokenTable pmStateA 1 "tok-alice").1 = true
    ∧ (PlayerManager.auth tokenTable pmStateA 1 "tok-alice").2.auth_players 1
      = some ({ id := 1, user_id := some 10, username := some "alice" }, 10)
    ∧ (PlayerManager.auth tokenTable pmStateA 2 "tok-alice").1 = false := by
  refine ⟨(auth_spec tokenTable pmStateA 1 "tok-alice").1.mpr ⟨by decide, rfl⟩,
    ?_, ?_⟩
  · exact ((auth_spec tokenTable pmStateA 1 "tok-alice").2.1 { id := 1 } userAlice
      (by decide) (rfl)).1
  · rw [(auth_spec tokenTable pmStateA 2 "tok-alice").2.2.1 (by decide)]

/-- C10: every operation of `PlayerManager` preserves the inclusion of the
authenticated map's keys in the connected map's keys; moreover `add` leaves
`auth_players` untouched. -/
theorem player_manager_invariant (st : PlayerManagerState) (h : PlayerManagerInv st) :
    (∀ player, PlayerManagerInv (PlayerManager.add st player)
      ∧ (PlayerManager.add st player).auth_players = st.auth_players)
    ∧ (∀ get_user_by_token player_id token,
        PlayerManagerInv (PlayerManager.auth get_user_by_token st player_id token).2)
    ∧ (∀ player, PlayerManagerInv (PlayerManager.remove st player)) := by
  refine ⟨fun player => ⟨fun pid hp => ?_, rfl⟩,
    fun get_user_by_token player_id token => ?_, fun player => ?_⟩
  · by_cases heq : pid = player.id <;> simp [PlayerManager.add, heq]
    exact h pid (by simpa [PlayerManager.add] using hp)
  · unfold PlayerManager.auth
    cases hc : st.connected_players player_id with
    | none => cases hd : get_user_by_token token <;> exact h
    | some player =>
        cases hd : get_user_by_token token with
        | none => exact h
        | some user =>
            intro pid hp
            by_cases heq : pid = player_id <;> simp [heq] at hp ⊢
            exact h pid hp
  · unfold PlayerManager.remove
    by_cases hc : (st.connected_players player.id).isSome <;> simp [hc]
    · by_cases ha : (st.auth_players player.id).isSome <;> simp [ha]
      · intro pid hp
        by_cases heq : pid = player.id <;> simp [heq] at hp ⊢
        exact h pid hp
      · intro pid hp
        by_cases heq : pid = player.id
        · exact absurd (heq ▸ hp) (by simpa using ha)
        · simp [heq]
          exact h pid hp
    · exact h

/-- Witness for C10 at a concrete empty state. -/
theorem player_manager_invariant_witness :
    PlayerManagerInv (PlayerManager.add pmStateEmpty playerCarol)
    ∧ PlayerManagerInv (PlayerManager.remove pmStateEmpty playerCarol) := by
  have h := player_manager_invariant pmStateEmpty (fun pid hp => by simp [pmStateEmpty] at hp)
  exact ⟨(h.1 playerCarol).1, h.2.2 playerCarol⟩

/-- Frozenset key equality is invariant under swapping the pair. -/
theorem cacheKeyEq_swap (k : String × String) (a b : String) :
    cacheKeyEq k (a, b) = cacheKeyEq k (b, a) := by
  simp [cacheKeyEq, Bool.or_comm]

/-- Cache lookup is invariant under swapping the username pair. -/
theorem cacheLookup_swap (cache : QualityCache) (a b : String) :
    cacheLookup cache (b, a) = cacheLookup cache (a, b) := by
  induction cache with
  | nil => rfl
  | cons e rest ih => simp [cacheLookup, cacheKeyEq_swap e.1 a b, ih]

/-- Lookup in a cache extended at the end, when the original cache misses. -/
theorem cacheLookup_append (cache : QualityCache) (e : (String × String) × ℚ)
    (key : String × String) (h : cacheLookup cache key = none) :
    cacheLookup (cache ++ [e]) key = if cacheKeyEq e.1 key then some e.2 else none := by
  induction cache with
  | nil => rfl
  | cons f rest ih =>
      by_cases hf : cacheKeyEq f.1 key = true
      · simp [cacheLookup, hf] at h
      · simp [cacheLookup, hf] at h ⊢
        exact ih h

/-- Unfolding of `_rate_match_quality` on a cache miss. -/
theorem rate_match_quality_miss (predict_draw : ℚ × ℚ → ℚ × ℚ → ℚ)
    (percental_time_bonus now : ℚ) (cache : QualityCache) (player1 player2 : QueueEntry)
    (hmiss : cacheLookup cache (player1.user.username, player2.user.username) = none) :
    MatchmakingManager.rate_match_quality predict_draw percental_time_bonus now cache
        player1 player2
      = (predict_draw (player1.user.mu, player1.user.sigma)
            (player2.user.mu, player2.user.sigma)
          + max 0 ((((now - player1.in_queue_since) + (now - player2.in_queue_since)) / 60 - 1)
              * percental_time_bonus),
        cache ++ [((player1.user.username, player2.user.username),
          predict_draw (player1.user.mu, player1.user.sigma)
              (player2.user.mu, player2.user.sigma)
            + max 0 ((((now - player1.in_queue_since) + (now - player2.in_queue_since)) / 60
                - 1) * percental_time_bonus))]) := by
  simp only [MatchmakingManager.rate_match_quality, hmiss]

/-- Unfolding of `_rate_match_quality` on a cache hit. -/
theorem rate_match_quality_hit (predict_draw : ℚ × ℚ → ℚ × ℚ → ℚ)
    (percental_time_bonus now : ℚ) (cache : QualityCache) (player1 player2 : QueueEntry)
    (q : ℚ)
    (hhit : cacheLookup cache (player1.user.username, player2.user.username) = some q) :
    MatchmakingManager.rate_match_quality predict_draw percental_time_bonus now cache
        player1 player2 = (q, cache) := by
  simp only [MatchmakingManager.rate_match_quality, hhit]

/-- C1: on a cache miss, `_rate_match_quality` returns the predicted draw
probability of the two ratings plus
`max(0, ((wait_a + wait_b)/60 − 1) · percental_time_bonus)` and stores the
value under the unordered username pair; a subsequent call for the same two
usernames (in either order and at any later time) returns the cached value
unchanged. -/
theorem rate_match_quality_spec (predict_draw : ℚ × ℚ → ℚ × ℚ → ℚ)
    (percental_time_bonus now now2 : ℚ) (cache : QualityCache)
    (player1 player2 : QueueEntry)
    (hmiss : cacheLookup cache (player1.user.username, player2.user.username) = none) :
    (MatchmakingManager.rate_match_quality predict_draw percental_time_bonus now cache
        player1 player2).1
      = predict_draw (player1.user.mu, player1.user.sigma)
          (player2.user.mu, player2.user.sigma)
        + max 0 ((((now - player1.in_queue_since) + (now - player2.in_queue_since)) / 60 - 1)
            * percental_time_bonus)
    ∧ (MatchmakingManager.rate_match_quality predict_draw percental_time_bonus now2
        (MatchmakingManager.rate_match_quality predict_draw percental_time_bonus now cache
          player1 player2).2 player2 player1).1
      = (MatchmakingManager.rate_match_quality predict_draw percental_time_bonus now cache
          player1 player2).1 := by
  have hmain := rate_match_quality_miss predict_draw percental_time_bonus now cache
    player1 player2 hmiss
  refine ⟨by rw [hmain], ?_⟩
  rw [hmain]
  generalize predict_draw (player1.user.mu, player1.user.sigma)
        (player2.user.mu, player2.user.sigma)
      + max 0 ((((now - player1.in_queue_since) + (now - player2.in_queue_since)) / 60 - 1)
          * percental_time_bonus) = V
  have hlook : cacheLookup
      (cache ++ [((player1.user.username, player2.user.username), V)])
      (player2.user.username, player1.user.username) = some V := by
    rw [cacheLookup_swap, cacheLookup_append cache _ _ hmiss]
    simp [cacheKeyEq]
  rw [rate_match_quality_hit predict_draw percental_time_bonus now2 _ player2 player1 V hlook]

/-- Witness for C1 at concrete players, an empty cache and a constant model. -/
theorem rate_match_quality_spec_witness :
    (MatchmakingManager.rate_match_quality predictDrawHalf (1 / 10) 120 [] entryAlice
        entryBob).1 = 4 / 5
    ∧ (MatchmakingManager.rate_match_quality predictDrawHalf (1 / 10) 999
        (MatchmakingManager.rate_match_quality predictDrawHalf (1 / 10) 120 [] entryAlice
          entryBob).2 entryBob entryAlice).1
      = (MatchmakingManager.rate_match_quality predictDrawHalf (1 / 10) 120 [] entryAlice
          entryBob).1 := by
  have h := rate_match_quality_spec predictDrawHalf (1 / 10) 120 999 [] entryAlice entryBob rfl
  refine ⟨?_, h.2⟩
  rw [h.1]
  norm_num [predictDrawHalf, entryAlice, entryBob]

/-- C3: when a finished game has a result whose end state is not DISCONNECTED,
`_end_game` writes back exactly the two ratings produced by `rate` from the
stored parameters and scores, and leaves every other user untouched; when the
result is `None` or the end state is DISCONNECTED, the store is unchanged. -/
theorem end_game_ratings_spec (rate : ℚ × ℚ → ℚ × ℚ → ℚ → ℚ → (ℚ × ℚ) × (ℚ × ℚ))
    (store : Int → ℚ × ℚ) (game : Game) :
    (∀ result, IGame.get_result game = some result →
      result.end_state ≠ GameEndState.DISCONNECTED →
      result.user1_id ≠ result.user2_id →
        MatchmakingManager.end_game_ratings rate store game result.user1_id
          = (rate (store result.user1_id) (store result.user2_id)
              result.score_user_1 result.score_user_2).1
        ∧ MatchmakingManager.end_game_ratings rate store game result.user2_id
          = (rate (store result.user1_id) (store result.user2_id)
              result.score_user_1 result.score_user_2).2
        ∧ ∀ u, u ≠ result.user1_id → u ≠ result.user2_id →
            MatchmakingManager.end_game_ratings rate store game u = store u)
    ∧ (IGame.get_result game = none →
        MatchmakingManager.end_game_ratings rate store game = store)
    ∧ (∀ result, IGame.get_result game = some result →
        result.end_state = GameEndState.DISCONNECTED →
        MatchmakingManager.end_game_ratings rate store game = store) := by
  refine ⟨fun result hres hdisc hne => ?_, fun hres => ?_, fun result hres hdisc => ?_⟩
  · unfold MatchmakingManager.end_game_ratings
    rw [hres]
    simp only [hdisc, if_true, ne_eq, not_false_iff]
    refine ⟨?_, ?_, fun u hu1 hu2 => ?_⟩
    · simp [update_matchmaking_parameters, hne, Ne.symm hne]
    · simp [update_matchmaking_parameters]
    · simp [update_matchmaking_parameters, hu1, hu2]
  · unfold MatchmakingManager.end_game_ratings
    rw [hres]
  · unfold MatchmakingManager.end_game_ratings
    rw [hres]
    simp [hdisc]

/-- Witness for C3 at the concrete game `gameD`, whose result is a WIN with
scores 1 and 0. -/
theorem end_game_ratings_spec_witness :
    MatchmakingManager.end_game_ratings rateD storeD gameD 10 = (26, 8)
    ∧ MatchmakingManager.end_game_ratings rateD storeD gameD 11 = (24, 8)
    ∧ MatchmakingManager.end_game_ratings rateD storeD gameD 12 = (25, 8) := by
  have h := (end_game_ratings_spec rateD storeD gameD).1
    { game_id := 8, user1_id := 10, user2_id := 11, score_user_1 := 1, score_user_2 := 0
      start_time := 0, end_state := GameEndState.WIN, is_user1_winner := true
      is_user1_disconnected := false }
    rfl (by decide) (by decide)
  refine ⟨?_, ?_, ?_⟩
  · rw [h.1]
    norm_num [rateD, storeD]
  · rw [h.2.1]
    norm_num [rateD, storeD]
  · rw [h.2.2 12 (by decide) (by decide)]
    rfl

/-- C7: `GameManager.end_game` on an active game with a resolved result
persists exactly one `GameResult` row, removes the game from the active-games
map, and a second call with the same game is a no-op. -/
theorem gm_end_game_idempotent (st : GameManagerState) (game : Game) (r : GameResult)
    (hin : (st.games.any fun kv => kv.1 == game.id) = true)
    (hres : IGame.get_result game = some r) :
    (GameManager.end_game st game).game_rows = st.game_rows ++ [r]
    ∧ ((GameManager.end_game st game).games.any fun kv => kv.1 == game.id) = false
    ∧ GameManager.end_game (GameManager.end_game st game) game
      = GameManager.end_game st game := by
  have hgone : ((st.games.filter fun kv => kv.1 != game.id).any
      fun kv => kv.1 == game.id) = false := by
    rw [List.any_eq_false]
    intro kv hkv
    have := List.of_mem_filter hkv
    simpa using this
  constructor
  · unfold GameManager.end_game
    rw [if_pos hin, hres]
  constructor
  · unfold GameManager.end_game
    rw [if_pos hin]
    exact hgone
  · conv_lhs => rw [GameManager.end_game]
    rw [if_neg]
    unfold GameManager.end_game
    rw [if_pos hin]
    simp only [hgone]
    exact fun hcon => by simp [hgone] at hcon

/-- Witness for C7 at the concrete state `gmStateE` holding `gameE`. -/
theorem gm_end_game_idempotent_witness :
    (GameManager.end_game gmStateE gameE).game_rows = [resultE]
    ∧ GameManager.end_game (GameManager.end_game gmStateE gameE) gameE
      = GameManager.end_game gmStateE gameE := by
  have h := gm_end_game_idempotent gmStateE gameE resultE (by decide) (by decide)
  exact ⟨h.1, h.2.2⟩

/-- Counterexample for C6 as stated: after a first `force_end`, a second call
with the same player id fires the finish callback again and sends `notify_end`
to the remaining player again, so the observable outcome is not unchanged. -/
theorem force_end_not_effect_idempotent :
    GameEvent.finishCallback 0 ∈ (IGame.force_end (IGame.force_end gameB 1).1 1).2
    ∧ GameEvent.notifyEnd 2 ∈ (IGame.force_end (IGame.force_end gameB 1).1 1).2 := by
  decide

/-- C6 amended: a second `force_end` with the same player id leaves the game
state unchanged and produces exactly the same event trace as the first call;
in particular every finish callback fires again and `notify_end` goes out
again, rather than being suppressed. -/
theorem force_end_second_call (g : Game) (player_id : PlayerID) :
    IGame.force_end (IGame.force_end g player_id).1 player_id = IGame.force_end g player_id
    ∧ ∀ cb ∈ g.finish_callbacks,
        GameEvent.finishCallback cb
          ∈ (IGame.force_end (IGame.force_end g player_id).1 player_id).2 := by
  constructor
  · rfl
  · intro cb hcb
    simp only [IGame.force_end, IGame.end_events, List.mem_append, List.mem_map]
    exact Or.inl (Or.inr ⟨cb, hcb, rfl⟩)

/-- Witness for the amended C6 at the concrete game `gameC`. -/
theorem force_end_second_call_witness :
    IGame.force_end (IGame.force_end gameC 1).1 1 = IGame.force_end gameC 1
    ∧ GameEvent.finishCallback 5 ∈ (IGame.force_end (IGame.force_end gameC 1).1 1).2 := by
  have h := force_end_second_call gameC 1
  exact ⟨h.1, h.2 5 (by decide)⟩

/-- Characterization of `QueueEntry.is_legal_match`: distinct user ids and not
both BOT. -/
theorem is_legal_match_iff (a b : QueueEntry) :
    a.is_legal_match b = true ↔
      a.user.user_id ≠ b.user.user_id
        ∧ ¬(a.user.role = UserRole.BOT ∧ b.user.role = UserRole.BOT) := by
  unfold QueueEntry.is_legal_match
  by_cases h1 : a.user.user_id = b.user.user_id <;>
    by_cases h2 : a.user.role = UserRole.BOT ∧ b.user.role = UserRole.BOT <;>
      simp [h1, h2]

/-- Every pair produced by `_compute_match_qualities` passes the legality
check. -/
theorem compute_match_qualities_legal (quality : QueueEntry → QueueEntry → ℚ)
    (player1 : QueueEntry) (candidates : List QueueEntry) (mq : QueueEntry × ℚ)
    (hmem : mq ∈ MatchmakingManager.compute_match_qualities quality player1 candidates) :
    player1.is_legal_match mq.1 = true := by
  unfold MatchmakingManager.compute_match_qualities at hmem
  obtain ⟨c, hc, rfl⟩ := List.mem_map.mp hmem
  exact (List.mem_filter.mp hc).2

/-- Every game started by `_start_game` is either an already-started pair or
the new pair, and the active-game count grows by at most one. -/
theorem start_game_cases (alive : PlayerID → Bool) (st : SearchState)
    (player1 player2 : QueueEntry) :
    ((MatchmakingManager.start_game alive st player1 player2).started = st.started
      ∧ (MatchmakingManager.start_game alive st player1 player2).active_games
          = st.active_games)
    ∨ ((MatchmakingManager.start_game alive st player1 player2).started
          = st.started ++ [(player1, player2)]
      ∧ (MatchmakingManager.start_game alive st player1 player2).active_games
          = st.active_games + 1) := by
  unfold MatchmakingManager.start_game
  by_cases h : (alive player1.player_id && alive player2.player_id) = true
  · right
    simp [h]
  · left
    simp [h]

/-- The matching loop returns immediately when the parallel-game limit is
already reached. -/
theorem search_loop_stop_at_limit (quality : QueueEntry → QueueEntry → ℚ) (threshold : ℚ)
    (max_parallel : Nat) (pick : List (QueueEntry × ℚ) → Nat) (alive : PlayerID → Bool)
    (fuel i : Nat) (st : SearchState) (h : max_parallel ≤ st.active_games) :
    MatchmakingManager.search_loop quality threshold max_parallel pick alive fuel i st
      = st := by
  cases fuel with
  | zero => rfl
  | succ fuel =>
      rw [MatchmakingManager.search_loop]
      by_cases hq : i + 1 < st.queue.length
      · rw [dif_pos hq, if_pos h]
      · rw [dif_neg hq]

/-- The matching loop never pushes the active-game count above the limit. -/
theorem search_loop_cap (quality : QueueEntry → QueueEntry → ℚ) (threshold : ℚ)
    (max_parallel : Nat) (pick : List (QueueEntry × ℚ) → Nat) (alive : PlayerID → Bool) :
    ∀ fuel i st, st.active_games ≤ max_parallel →
      (MatchmakingManager.search_loop quality threshold max_parallel pick alive fuel i
          st).active_games ≤ max_parallel := by
  intro fuel
  induction fuel with
  | zero => intro i st h; exact h
  | succ fuel ih =>
      intro i st h
      rw [MatchmakingManager.search_loop]
      split
      · split
        · exact h
        · case isFalse hlim =>
            split
            · exact ih _ _ h
            · refine ih _ _ ?_
              have hlt : st.active_games + 1 ≤ max_parallel :=
                Nat.succ_le_of_lt (Nat.lt_of_not_le hlim)
              rcases start_game_cases alive st _ _ with ⟨_, hact⟩ | ⟨_, hact⟩
              · rw [hact]; exact h
              · rw [hact]; exact hlt
      · exact h

/-- Legality of all pairs started by the matching loop, given legality of the
already-started pairs. -/
theorem search_loop_started_legal (quality : QueueEntry → QueueEntry → ℚ) (threshold : ℚ)
    (max_parallel : Nat) (pick : List (QueueEntry × ℚ) → Nat) (alive : PlayerID → Bool) :
    ∀ fuel i st, (∀ pr ∈ st.started, pr.1.is_legal_match pr.2 = true) →
      ∀ pr ∈ (MatchmakingManager.search_loop quality threshold max_parallel pick alive fuel
          i st).started, pr.1.is_legal_match pr.2 = true := by
  intro fuel
  induction fuel with
  | zero => intro i st h pr hpr; exact h pr hpr
  | succ fuel ih =>
      intro i st h pr hpr
      rw [MatchmakingManager.search_loop] at hpr
      split at hpr
      · split at hpr
        · exact h pr hpr
        · split at hpr
          · exact ih _ _ h pr hpr
          · next mq0 rest heq =>
              refine ih _ _ ?_ pr hpr
              intro pr' hpr'
              have hall : ∀ mq ∈ mq0 :: rest,
                  (st.queue.get ⟨i, by omega⟩).is_legal_match mq.1 = true := by
                intro mq hmq
                rw [← heq] at hmq
                exact compute_match_qualities_legal quality _ _ _ (List.mem_filter.mp hmq).1
              rcases start_game_cases alive st (st.queue.get ⟨i, by omega⟩)
                  ((mq0 :: rest).get
                    ⟨pick (mq0 :: rest) % (mq0 :: rest).length,
                      Nat.mod_lt _ (Nat.succ_pos _)⟩).1 with ⟨hst, _⟩ | ⟨hst, _⟩
              · rw [hst] at hpr'
                exact h pr' hpr'
              · rw [hst] at hpr'
                rcases List.mem_append.mp hpr' with hold | hnew
                · exact h pr' hold
                · have hpr'' : pr' = (st.queue.get ⟨i, by omega⟩,
                      ((mq0 :: rest).get
                        ⟨pick (mq0 :: rest) % (mq0 :: rest).length,
                          Nat.mod_lt _ (Nat.succ_pos _)⟩).1) := by
                    simpa using hnew
                  rw [hpr'']
                  exact hall _ (List.get_mem _ _ _)
      · exact h pr hpr

/-- C4: the matching pass rates a candidate pair only when the legality check
passes, the legality check holds exactly for pairs with distinct user ids that
are not both bots, and consequently every game started by the pass (on top of
legal already-started pairs) pairs entries with distinct user ids that are not
both bots. -/
theorem search_legal_matches (quality : QueueEntry → QueueEntry → ℚ) (threshold : ℚ)
    (max_parallel : Nat) (pick : List (QueueEntry × ℚ) → Nat) (alive : PlayerID → Bool)
    (fuel i : Nat) (st : SearchState)
    (hstart : ∀ pr ∈ st.started, pr.1.is_legal_match pr.2 = true) :
    (∀ a b : QueueEntry, a.is_legal_match b = true ↔
        a.user.user_id ≠ b.user.user_id
          ∧ ¬(a.user.role = UserRole.BOT ∧ b.user.role = UserRole.BOT))
    ∧ (∀ player1 candidates mq,
        mq ∈ MatchmakingManager.compute_match_qualities quality player1 candidates →
          player1.is_legal_match mq.1 = true)
    ∧ ∀ pr ∈ (MatchmakingManager.search_loop quality threshold max_parallel pick alive fuel
        i st).started,
        pr.1.user.user_id ≠ pr.2.user.user_id
          ∧ ¬(pr.1.user.role = UserRole.BOT ∧ pr.2.user.role = UserRole.BOT) := by
  refine ⟨is_legal_match_iff, fun player1 candidates mq hm =>
    compute_match_qualities_legal quality player1 candidates mq hm, fun pr hpr => ?_⟩
  exact (is_legal_match_iff pr.1 pr.2).mp
    (search_loop_started_legal quality threshold max_parallel pick alive fuel i st hstart
      pr hpr)

/-- Witness for C4: running the pass on Alice and Bob starts their game, and
the theorem yields the distinct-user and not-both-bots facts for that pair. -/
theorem search_legal_matches_witness :
    entryAlice.user.user_id ≠ entryBob.user.user_id
    ∧ ¬(entryAlice.user.role = UserRole.BOT ∧ entryBob.user.role = UserRole.BOT) :=
  (search_legal_matches qualityOne 0 100 pickZero aliveAll 3 0 searchStateA
    (fun pr hpr => by simp [searchStateA] at hpr)).2.2 (entryAlice, entryBob) (by decide)

/-- C5: the matching loop stops whenever the active-game count has reached
`max_parallel_games`, and if at most that many games are active when the pass
starts then at most that many are active after any number of loop iterations,
for the bare loop as well as for the full `_search_for_matches` pass. -/
theorem search_parallel_cap (quality : QueueEntry → QueueEntry → ℚ) (threshold : ℚ)
    (max_parallel : Nat) (pick : List (QueueEntry × ℚ) → Nat) (alive : PlayerID → Bool)
    (fuel i : Nat) (st : SearchState) (h : st.active_games ≤ max_parallel) :
    (max_parallel ≤ st.active_games →
      MatchmakingManager.search_loop quality threshold max_parallel pick alive fuel i st
        = st)
    ∧ (MatchmakingManager.search_loop quality threshold max_parallel pick alive fuel i
        st).active_games ≤ max_parallel
    ∧ ∀ min_players,
        (MatchmakingManager.search_for_matches quality threshold max_parallel pick alive
          min_players fuel st).active_games ≤ max_parallel := by
  refine ⟨fun hlim => search_loop_stop_at_limit quality threshold max_parallel pick alive
    fuel i st hlim, search_loop_cap quality threshold max_parallel pick alive fuel i st h,
    fun min_players => ?_⟩
  unfold MatchmakingManager.search_for_matches
  split
  · exact h
  · exact search_loop_cap quality threshold max_parallel pick alive fuel 0 st h

/-- Witness for C5: with two active games and a limit of two, the loop leaves
the state unchanged and the count stays within the limit. -/
theorem search_parallel_cap_witness :
    MatchmakingManager.search_loop qualityOne 0 2 pickZero aliveAll 3 0 searchStateB
      = searchStateB
    ∧ (MatchmakingManager.search_loop qualityOne 0 2 pickZero aliveAll 3 0
        searchStateB).active_games ≤ 2 := by
  have h := search_parallel_cap qualityOne 0 2 pickZero aliveAll 3 0 searchStateB
    (by decide)
  exact ⟨h.1 (by decide), h.2.1⟩

end Comprl
